import Mathlib

/-!
# Roccat KonePureUltra HID driver: embedding and verified properties

Shallow embedding of `hid-roccat-konepureultra.c`.

The driver is a set of callbacks (`probe`, `remove`, `raw_event`) that the HID
core invokes on one `hid_device`.  Everything the callbacks touch is gathered
in a `World` value that is passed explicitly: the interface protocol tag, the
driver-data pointer of the device, the kernel heap holding the per-device
context, the transport state, the set of open character-device channels, and
the ordered log of calls made to the kernel and to the Roccat hub.

The results of the kernel services whose outcome the driver branches on
(`hid_parse`, `hid_hw_start`, `kzalloc`, `roccat_common2_device_init_struct`,
`roccat_connect`) are inputs, collected in `Outcomes`.

`hid_err` only writes to the kernel log and is not recorded.
-/

namespace KonePureUltra

/-! ## Constants -/

/-- The enum constant `KONEPUREULTRA_MOUSE_REPORT_NUMBER_BUTTON = 3`. -/
def KONEPUREULTRA_MOUSE_REPORT_NUMBER_BUTTON : Nat := 3

/-- The kernel constant `USB_INTERFACE_PROTOCOL_MOUSE` of `linux/hid.h`. -/
def USB_INTERFACE_PROTOCOL_MOUSE : Nat := 2

/-- The kernel errno `ENOMEM`. -/
def ENOMEM : Int := 12

/-- Field layout of `struct konepureultra_mouse_report_button`: field name and
size in bytes (all fields are `uint8_t`, `unknown` is an array of two). -/
def konepureultra_mouse_report_button : List (String × Nat) :=
  [("report_number", 1), ("zero", 1), ("type", 1), ("data1", 1),
   ("data2", 1), ("zero2", 1), ("unknown", 2)]

/-- The value of `sizeof(struct konepureultra_mouse_report_button)`: the
structure is `__packed`, so its size is the sum of its field sizes. -/
def sizeof_konepureultra_mouse_report_button : Nat :=
  (konepureultra_mouse_report_button.map Prod.snd).sum

/-! ## Resource table -/

/-- Access mode of a binary sysfs attribute. -/
inductive Access where
  | WriteOnly
  | ReadWrite
  | ReadOnly
  deriving DecidableEq, Repr

/-- Modelled from the spec: the `struct bin_attribute` together with the
command of its sysfs handlers, as produced by the `ROCCAT_COMMON2_BIN_ATTRIBUTE_*`
helpers of `hid-roccat-common.h` (not among the sources).  The spec gives a
resource descriptor as `{name, command_code, payload_size, access}`. -/
structure bin_attribute where
  name : String
  command_code : Nat
  payload_size : Nat
  access : Access
  deriving DecidableEq, Repr

/-- Modelled from the spec: `ROCCAT_COMMON2_BIN_ATTRIBUTE_W(thingy, COMMAND, SIZE)`
of `hid-roccat-common.h` declares a write-only resource. -/
def ROCCAT_COMMON2_BIN_ATTRIBUTE_W (thingy : String) (COMMAND SIZE : Nat) : bin_attribute :=
  { name := thingy, command_code := COMMAND, payload_size := SIZE, access := Access.WriteOnly }

/-- Modelled from the spec: `ROCCAT_COMMON2_BIN_ATTRIBUTE_RW(thingy, COMMAND, SIZE)`
of `hid-roccat-common.h` declares a read-write resource. -/
def ROCCAT_COMMON2_BIN_ATTRIBUTE_RW (thingy : String) (COMMAND SIZE : Nat) : bin_attribute :=
  { name := thingy, command_code := COMMAND, payload_size := SIZE, access := Access.ReadWrite }

/-- Modelled from the spec: `ROCCAT_COMMON2_BIN_ATTRIBUTE_R(thingy, COMMAND, SIZE)`
of `hid-roccat-common.h` declares a read-only resource. -/
def ROCCAT_COMMON2_BIN_ATTRIBUTE_R (thingy : String) (COMMAND SIZE : Nat) : bin_attribute :=
  { name := thingy, command_code := COMMAND, payload_size := SIZE, access := Access.ReadOnly }

def bin_attr_control : bin_attribute := ROCCAT_COMMON2_BIN_ATTRIBUTE_W "control" 0x04 0x03

def bin_attr_actual_profile : bin_attribute :=
  ROCCAT_COMMON2_BIN_ATTRIBUTE_RW "actual_profile" 0x05 0x03

def bin_attr_profile_settings : bin_attribute :=
  ROCCAT_COMMON2_BIN_ATTRIBUTE_RW "profile_settings" 0x06 0x1f

def bin_attr_profile_buttons : bin_attribute :=
  ROCCAT_COMMON2_BIN_ATTRIBUTE_RW "profile_buttons" 0x07 0x3b

def bin_attr_macro : bin_attribute := ROCCAT_COMMON2_BIN_ATTRIBUTE_W "macro" 0x08 0x0822

def bin_attr_info : bin_attribute := ROCCAT_COMMON2_BIN_ATTRIBUTE_RW "info" 0x09 0x06

def bin_attr_tcu : bin_attribute := ROCCAT_COMMON2_BIN_ATTRIBUTE_RW "tcu" 0x0c 0x04

def bin_attr_tcu_image : bin_attribute := ROCCAT_COMMON2_BIN_ATTRIBUTE_R "tcu_image" 0x0c 0x0404

def bin_attr_sensor : bin_attribute := ROCCAT_COMMON2_BIN_ATTRIBUTE_RW "sensor" 0x0f 0x06

def bin_attr_talk : bin_attribute := ROCCAT_COMMON2_BIN_ATTRIBUTE_W "talk" 0x10 0x10

/-- The array `konepureultra_bin_attrs`, in source order, without the
terminating `NULL`. -/
def konepureultra_bin_attrs : List bin_attribute :=
  [ bin_attr_actual_profile,
   bin_attr_control,
   bin_attr_info,
   bin_attr_talk,
   bin_attr_macro,
   bin_attr_sensor,
   bin_attr_tcu,
   bin_attr_tcu_image,
   bin_attr_profile_settings,
   bin_attr_profile_buttons]

/-! ## Device context, heap and kernel services -/

/-- Modelled from the spec: `struct roccat_common2_device` is declared in
`hid-roccat-common.h` (not among the sources).  The spec gives the device
context the fields `channel_open` and `channel_id`; they carry the names and
the C type `int` under which the driver reads and writes them.  The lock of
the structure is never used by this driver. -/
structure roccat_common2_device where
  roccat_claimed : Int
  chrdev_minor : Int
  deriving DecidableEq, Repr

/-- A call made by the driver to the kernel or to the Roccat hub. -/
inductive Call where
  | hid_parse
  | hid_hw_start
  | hid_hw_stop
  | kzalloc (result : Option Nat)
  | kfree (p : Nat)
  | roccat_common2_device_init_struct (p : Nat)
  | roccat_connect (report_size : Nat)
  | roccat_disconnect (minor : Int)
  | roccat_report_event (minor : Int) (data : List Nat)
  deriving DecidableEq, Repr

/-- Undefined behaviour the driver can run into. -/
inductive Fault where
  | null_deref
  | use_after_free
  | out_of_bounds
  deriving DecidableEq, Repr

/-- Results of the kernel services the driver branches on. -/
structure Outcomes where
  hid_parse : Int
  hid_hw_start : Int
  /-- Whether `kzalloc` obtains memory. -/
  kzalloc : Bool
  roccat_common2_device_init_struct : Int
  roccat_connect : Int
  deriving DecidableEq, Repr

/-- Everything the callbacks of one `hid_device` read or change. -/
structure World where
  /-- The field `intf->cur_altsetting->desc.bInterfaceProtocol`. -/
  bInterfaceProtocol : Nat
  /-- Driver data of the device; `none` is `NULL`. -/
  drvdata : Option Nat
  /-- Live allocations: address and contents. -/
  heap : List (Nat × roccat_common2_device)
  /-- Address handed out by the next successful allocation. -/
  next_addr : Nat
  /-- Whether the HID transport is started. -/
  hw_running : Bool
  /-- Minors of the open Roccat character-device channels. -/
  channels : List Int
  /-- Calls made so far, oldest first. -/
  trace : List Call
  deriving DecidableEq, Repr

/-- Record a call. -/
def World.log (w : World) (c : Call) : World :=
  { w with trace := w.trace ++ [c] }

/-- Contents of the live allocation at `p`, if any. -/
def World.load (w : World) (p : Nat) : Option roccat_common2_device :=
  w.heap.lookup p

/-- Overwrite the allocation at `p`. -/
def World.store (w : World) (p : Nat) (d : roccat_common2_device) : World :=
  { w with heap := (p, d) :: w.heap.filter (fun e => e.1 != p) }

def hid_set_drvdata (w : World) (p : Option Nat) : World :=
  { w with drvdata := p }

def hid_get_drvdata (w : World) : Option Nat :=
  w.drvdata

def hid_parse (o : Outcomes) (w : World) : Int × World :=
  (o.hid_parse, w.log Call.hid_parse)

/-- A successful start leaves the transport running; a failed start leaves
it as it was. -/
def hid_hw_start (o : Outcomes) (w : World) : Int × World :=
  let w := w.log Call.hid_hw_start
  if o.hid_hw_start = 0 then (0, { w with hw_running := true }) else (o.hid_hw_start, w)

def hid_hw_stop (w : World) : World :=
  { w.log Call.hid_hw_stop with hw_running := false }

/-- Zeroed allocation of one `roccat_common2_device`; `none` is `NULL`. -/
def kzalloc (o : Outcomes) (w : World) : Option Nat × World :=
  if o.kzalloc then
    let p := w.next_addr
    (some p,
     { w with
       heap := (p, { roccat_claimed := 0, chrdev_minor := 0 }) :: w.heap
       next_addr := p + 1
       trace := w.trace ++ [Call.kzalloc (some p)] })
  else
    (none, w.log (Call.kzalloc none))

/-- Release the allocation at `p`. -/
def kfree (w : World) (p : Nat) : World :=
  { w with
    heap := w.heap.filter (fun e => e.1 != p)
    trace := w.trace ++ [Call.kfree p] }

/-- The helper only initialises the lock of the structure. -/
def roccat_common2_device_init_struct (o : Outcomes) (w : World) (p : Nat) : Int × World :=
  (o.roccat_common2_device_init_struct, w.log (Call.roccat_common2_device_init_struct p))

/-- A non-negative result is the minor of a newly opened channel. -/
def roccat_connect (o : Outcomes) (w : World) (report_size : Nat) : Int × World :=
  let w := w.log (Call.roccat_connect report_size)
  if o.roccat_connect < 0 then (o.roccat_connect, w)
  else (o.roccat_connect, { w with channels := o.roccat_connect :: w.channels })

def roccat_disconnect (w : World) (minor : Int) : World :=
  { w.log (Call.roccat_disconnect minor) with channels := w.channels.erase minor }

def roccat_report_event (w : World) (minor : Int) (data : List Nat) : World :=
  w.log (Call.roccat_report_event minor data)

/-! ## The driver -/

def konepureultra_init_specials (o : Outcomes) (w : World) : Except Fault (Int × World) :=
  if w.bInterfaceProtocol ≠ USB_INTERFACE_PROTOCOL_MOUSE then
    Except.ok (0, hid_set_drvdata w none)
  else
    match kzalloc o w with
    | (none, w) => Except.ok (-ENOMEM, w)
    | (some konepureultra, w) =>
      let w := hid_set_drvdata w (some konepureultra)
      match roccat_common2_device_init_struct o w konepureultra with
      | (retval, w) =>
        if retval ≠ 0 then
          -- exit_free
          Except.ok (retval, kfree w konepureultra)
        else
          match roccat_connect o w sizeof_konepureultra_mouse_report_button with
          | (retval, w) =>
            if retval < 0 then
              Except.ok (0, w)
            else
              match w.load konepureultra with
              | none => Except.error Fault.use_after_free
              | some d =>
                let w := w.store konepureultra { d with chrdev_minor := retval }
                match w.load konepureultra with
                | none => Except.error Fault.use_after_free
                | some d =>
                  let w := w.store konepureultra { d with roccat_claimed := 1 }
                  Except.ok (0, w)

def konepureultra_remove_specials (w : World) : Except Fault World :=
  if w.bInterfaceProtocol ≠ USB_INTERFACE_PROTOCOL_MOUSE then
    Except.ok w
  else
    match hid_get_drvdata w with
    | none => Except.error Fault.null_deref
    | some konepureultra =>
      match w.load konepureultra with
      | none => Except.error Fault.use_after_free
      | some d =>
        let w := if d.roccat_claimed ≠ 0 then roccat_disconnect w d.chrdev_minor else w
        Except.ok (kfree w konepureultra)

def konepureultra_probe (o : Outcomes) (w : World) : Except Fault (Int × World) :=
  match hid_parse o w with
  | (retval, w) =>
    if retval ≠ 0 then
      Except.ok (retval, w)
    else
      match hid_hw_start o w with
      | (retval, w) =>
        if retval ≠ 0 then
          Except.ok (retval, w)
        else
          match konepureultra_init_specials o w with
          | Except.error e => Except.error e
          | Except.ok (retval, w) =>
            if retval ≠ 0 then
              Except.ok (retval, hid_hw_stop w)
            else
              Except.ok (retval, w)

def konepureultra_remove (w : World) : Except Fault World :=
  match konepureultra_remove_specials w with
  | Except.error e => Except.error e
  | Except.ok w => Except.ok (hid_hw_stop w)

/-- The report callback; `data` holds the bytes of the report.  The parameters
`report` and `size` of the C function are not used by its body. -/
def konepureultra_raw_event (w : World) (data : List Nat) : Except Fault (Int × World) :=
  let konepureultra := hid_get_drvdata w
  if w.bInterfaceProtocol ≠ USB_INTERFACE_PROTOCOL_MOUSE then
    Except.ok (0, w)
  else
    match data with
    | [] => Except.error Fault.out_of_bounds
    | tag :: _ =>
      if tag ≠ KONEPUREULTRA_MOUSE_REPORT_NUMBER_BUTTON then
        Except.ok (0, w)
      else
        match konepureultra with
        | none => Except.ok (0, w)
        | some p =>
          match w.load p with
          | none => Except.error Fault.use_after_free
          | some d =>
            if d.roccat_claimed ≠ 0 then
              Except.ok (0, roccat_report_event w d.chrdev_minor data)
            else
              Except.ok (0, w)

/-- Deliver a sequence of reports, one `konepureultra_raw_event` call each. -/
def deliver (w : World) : List (List Nat) → Except Fault World
  | [] => Except.ok w
  | data :: rest =>
    match konepureultra_raw_event w data with
    | Except.error e => Except.error e
    | Except.ok (_, w1) => deliver w1 rest

/-- A device as the HID core hands it to `probe`: nothing allocated, no
driver data, transport stopped, no channel, no call made. -/
def fresh (proto : Nat) : World :=
  { bInterfaceProtocol := proto, drvdata := none, heap := [], next_addr := 1,
    hw_running := false, channels := [], trace := [] }

/-- A mouse-protocol device whose context holds an open channel of minor 7. -/
def claimed_device : World :=
  { bInterfaceProtocol := 2, drvdata := some 1,
    heap := [(1, { roccat_claimed := 1, chrdev_minor := 7 })], next_addr := 2,
    hw_running := true, channels := [7], trace := [] }

/-- The device after a probe in which every step succeeded and
`roccat_connect` returned minor 7. -/
def connected_device : World :=
  { bInterfaceProtocol := 2, drvdata := some 1,
    heap := [(1, { roccat_claimed := 1, chrdev_minor := 7 })], next_addr := 2,
    hw_running := true, channels := [7],
    trace := [Call.hid_parse, Call.hid_hw_start, Call.kzalloc (some 1),
      Call.roccat_common2_device_init_struct 1, Call.roccat_connect 8] }

/-- Every step succeeds and `roccat_connect` returns `r`. -/
def outcomes_connect (r : Int) : Outcomes :=
  { hid_parse := 0, hid_hw_start := 0, kzalloc := true,
    roccat_common2_device_init_struct := 0, roccat_connect := r }

/-- Parsing, transport start and allocation succeed, and
`roccat_common2_device_init_struct` returns `e`. -/
def outcomes_init (e : Int) : Outcomes :=
  { hid_parse := 0, hid_hw_start := 0, kzalloc := true,
    roccat_common2_device_init_struct := e, roccat_connect := 0 }

/-- A button report: tag 3 followed by the seven payload bytes. -/
def button_report : List Nat := [3, 0, 240, 1, 0, 0, 0, 0]

/-! ## Stepwise description of `probe` -/

theorem probe_parse_failed (o : Outcomes) (w : World) (h : o.hid_parse ≠ 0) :
    konepureultra_probe o w = Except.ok (o.hid_parse, w.log Call.hid_parse) := by
  simp [konepureultra_probe, hid_parse, h]

theorem probe_start_failed (o : Outcomes) (w : World) (hp : o.hid_parse = 0)
    (h : o.hid_hw_start ≠ 0) :
    konepureultra_probe o w =
      Except.ok (o.hid_hw_start, (w.log Call.hid_parse).log Call.hid_hw_start) := by
  simp [konepureultra_probe, hid_parse, hid_hw_start, hp, h]

theorem probe_rejected (o : Outcomes) (w : World) (hp : o.hid_parse = 0)
    (hs : o.hid_hw_start = 0) (hg : w.bInterfaceProtocol ≠ USB_INTERFACE_PROTOCOL_MOUSE) :
    konepureultra_probe o w =
      Except.ok (0, { w with
        drvdata := none
        hw_running := true
        trace := w.trace ++ [Call.hid_parse, Call.hid_hw_start] }) := by
  simp [konepureultra_probe, konepureultra_init_specials, hid_parse, hid_hw_start,
    hid_set_drvdata, World.log, hp, hs, hg]

theorem probe_alloc_failed (o : Outcomes) (w : World) (hp : o.hid_parse = 0)
    (hs : o.hid_hw_start = 0) (hg : w.bInterfaceProtocol = USB_INTERFACE_PROTOCOL_MOUSE)
    (ha : o.kzalloc = false) :
    konepureultra_probe o w =
      Except.ok (-ENOMEM, { w with
        hw_running := false
        trace := w.trace ++
          [Call.hid_parse, Call.hid_hw_start, Call.kzalloc none, Call.hid_hw_stop] }) := by
  simp [konepureultra_probe, konepureultra_init_specials, hid_parse, hid_hw_start,
    hid_hw_stop, kzalloc, World.log, hp, hs, hg, ha, ENOMEM]

theorem probe_init_failed (o : Outcomes) (w : World) (hp : o.hid_parse = 0)
    (hs : o.hid_hw_start = 0) (hg : w.bInterfaceProtocol = USB_INTERFACE_PROTOCOL_MOUSE)
    (ha : o.kzalloc = true) (hi : o.roccat_common2_device_init_struct ≠ 0) :
    konepureultra_probe o w =
      Except.ok (o.roccat_common2_device_init_struct, { w with
        drvdata := some w.next_addr
        heap := w.heap.filter (fun e => e.1 != w.next_addr)
        next_addr := w.next_addr + 1
        hw_running := false
        trace := w.trace ++
          [Call.hid_parse, Call.hid_hw_start, Call.kzalloc (some w.next_addr),
           Call.roccat_common2_device_init_struct w.next_addr, Call.kfree w.next_addr,
           Call.hid_hw_stop] }) := by
  simp [konepureultra_probe, konepureultra_init_specials, hid_parse, hid_hw_start,
    hid_hw_stop, kzalloc, kfree, hid_set_drvdata, roccat_common2_device_init_struct,
    World.log, hp, hs, hg, ha, hi]

theorem probe_connect_failed (o : Outcomes) (w : World) (hp : o.hid_parse = 0)
    (hs : o.hid_hw_start = 0) (hg : w.bInterfaceProtocol = USB_INTERFACE_PROTOCOL_MOUSE)
    (ha : o.kzalloc = true) (hi : o.roccat_common2_device_init_struct = 0)
    (hc : o.roccat_connect < 0) :
    konepureultra_probe o w =
      Except.ok (0, { w with
        drvdata := some w.next_addr
        heap := (w.next_addr, { roccat_claimed := 0, chrdev_minor := 0 }) :: w.heap
        next_addr := w.next_addr + 1
        hw_running := true
        trace := w.trace ++
          [Call.hid_parse, Call.hid_hw_start, Call.kzalloc (some w.next_addr),
           Call.roccat_common2_device_init_struct w.next_addr,
           Call.roccat_connect 8] }) := by
  simp [konepureultra_probe, konepureultra_init_specials, hid_parse, hid_hw_start,
    kzalloc, hid_set_drvdata, roccat_common2_device_init_struct, roccat_connect,
    World.log, hp, hs, hg, ha, hi, hc, sizeof_konepureultra_mouse_report_button,
    konepureultra_mouse_report_button]

theorem probe_connected (o : Outcomes) (w : World) (hp : o.hid_parse = 0)
    (hs : o.hid_hw_start = 0) (hg : w.bInterfaceProtocol = USB_INTERFACE_PROTOCOL_MOUSE)
    (ha : o.kzalloc = true) (hi : o.roccat_common2_device_init_struct = 0)
    (hc : 0 ≤ o.roccat_connect) :
    konepureultra_probe o w =
      Except.ok (0, { w with
        drvdata := some w.next_addr
        heap := (w.next_addr, { roccat_claimed := 1, chrdev_minor := o.roccat_connect }) ::
          w.heap.filter (fun e => e.1 != w.next_addr)
        next_addr := w.next_addr + 1
        hw_running := true
        channels := o.roccat_connect :: w.channels
        trace := w.trace ++
          [Call.hid_parse, Call.hid_hw_start, Call.kzalloc (some w.next_addr),
           Call.roccat_common2_device_init_struct w.next_addr,
           Call.roccat_connect 8] }) := by
  have hc2 : ¬ o.roccat_connect < 0 := by omega
  simp [konepureultra_probe, konepureultra_init_specials, hid_parse, hid_hw_start,
    kzalloc, hid_set_drvdata, roccat_common2_device_init_struct, roccat_connect,
    World.log, World.load, World.store, hp, hs, hg, ha, hi, hc2,
    sizeof_konepureultra_mouse_report_button, konepureultra_mouse_report_button]

/-! ## Reports that leave the device untouched -/

theorem raw_event_rejected (w : World) (data : List Nat)
    (hg : w.bInterfaceProtocol ≠ USB_INTERFACE_PROTOCOL_MOUSE) :
    konepureultra_raw_event w data = Except.ok (0, w) := by
  simp [konepureultra_raw_event, hg]

theorem raw_event_unclaimed (w : World) (tag : Nat) (rest : List Nat) (p : Nat)
    (d : roccat_common2_device) (hd : w.drvdata = some p) (hl : w.load p = some d)
    (hc : d.roccat_claimed = 0) :
    konepureultra_raw_event w (tag :: rest) = Except.ok (0, w) := by
  simp [konepureultra_raw_event, hid_get_drvdata, hd, hl, hc]

theorem deliver_rejected (w : World) (reports : List (List Nat))
    (hg : w.bInterfaceProtocol ≠ USB_INTERFACE_PROTOCOL_MOUSE) :
    deliver w reports = Except.ok w := by
  induction reports with
  | nil => rfl
  | cons data rest ih => simp [deliver, raw_event_rejected w data hg, ih]

theorem deliver_unclaimed (w : World) (reports : List (List Nat)) (p : Nat)
    (d : roccat_common2_device) (hd : w.drvdata = some p) (hl : w.load p = some d)
    (hc : d.roccat_claimed = 0) (hne : ∀ data ∈ reports, data ≠ []) :
    deliver w reports = Except.ok w := by
  induction reports with
  | nil => rfl
  | cons data rest ih =>
    have h1 : data ≠ [] := hne data (List.mem_cons_self data rest)
    have h2 : ∀ x ∈ rest, x ≠ [] := fun x hx => hne x (List.mem_cons_of_mem data hx)
    cases data with
    | nil => exact absurd rfl h1
    | cons tag tl => simp [deliver, raw_event_unclaimed w tag tl p d hd hl hc, ih h2]

/-! ## Verified claims -/

/-- C1: on a mouse-protocol interface, `konepureultra_raw_event` returns 0 and
makes exactly one `roccat_report_event` call, carrying the stored
`chrdev_minor` and the unmodified report, when the first byte of the report
is 3 and the context has `roccat_claimed` set; in every other case (another
tag, channel not claimed, no context) it makes no call and changes nothing. -/
theorem raw_event_forwards_iff_tag_and_claimed (w : World) (tag : Nat) (rest : List Nat)
    (hg : w.bInterfaceProtocol = USB_INTERFACE_PROTOCOL_MOUSE) :
    (w.drvdata = none → konepureultra_raw_event w (tag :: rest) = Except.ok (0, w)) ∧
    (∀ p d, w.drvdata = some p → w.load p = some d →
      konepureultra_raw_event w (tag :: rest) =
        Except.ok (0,
          if tag = 3 ∧ d.roccat_claimed ≠ 0 then
            { w with trace := w.trace ++ [Call.roccat_report_event d.chrdev_minor (tag :: rest)] }
          else w)) := by
  refine ⟨fun hn => ?_, fun p d hd hl => ?_⟩
  · simp [konepureultra_raw_event, hid_get_drvdata, hg, hn]
  · by_cases ht : tag = 3
    · by_cases hc : d.roccat_claimed = 0
      · simp [konepureultra_raw_event, hid_get_drvdata, hg, hd, hl, ht, hc,
          KONEPUREULTRA_MOUSE_REPORT_NUMBER_BUTTON]
      · simp [konepureultra_raw_event, hid_get_drvdata, hg, hd, hl, ht, hc,
          KONEPUREULTRA_MOUSE_REPORT_NUMBER_BUTTON, roccat_report_event, World.log]
    · simp [konepureultra_raw_event, hg, ht, KONEPUREULTRA_MOUSE_REPORT_NUMBER_BUTTON]

theorem raw_event_forwards_iff_tag_and_claimed_witness :
    konepureultra_raw_event claimed_device [3, 0, 240, 1, 0, 0, 0, 0] =
        Except.ok (0, { claimed_device with
          trace := [Call.roccat_report_event 7 [3, 0, 240, 1, 0, 0, 0, 0]] }) ∧
      konepureultra_raw_event claimed_device [4, 0, 240, 1, 0, 0, 0, 0] =
        Except.ok (0, claimed_device) :=
  ⟨(raw_event_forwards_iff_tag_and_claimed claimed_device 3 [0, 240, 1, 0, 0, 0, 0] rfl).2
      1 { roccat_claimed := 1, chrdev_minor := 7 } rfl rfl,
   (raw_event_forwards_iff_tag_and_claimed claimed_device 4 [0, 240, 1, 0, 0, 0, 0] rfl).2
      1 { roccat_claimed := 1, chrdev_minor := 7 } rfl rfl⟩

/-- C2 (as stated, refuted): two different descriptors of the table, `tcu` and
`tcu_image`, carry the same command code 0x0c. -/
theorem command_codes_not_pairwise_distinct :
    ¬ (∀ a ∈ konepureultra_bin_attrs, ∀ b ∈ konepureultra_bin_attrs,
        a ≠ b → a.command_code ≠ b.command_code) := by
  intro h
  exact h bin_attr_tcu (by decide) bin_attr_tcu_image (by decide) (by decide) (by decide)

/-- C2 (amended): the descriptors of the table have pairwise distinct names
and pairwise distinct (command code, payload size) pairs; the command codes
are pairwise distinct once `tcu_image` is left out, and `tcu_image` shares its
command code 0x0c with `tcu`. -/
theorem command_codes_distinct_up_to_tcu_image :
    (konepureultra_bin_attrs.map (fun d => d.name)).Nodup ∧
    (konepureultra_bin_attrs.map (fun d => (d.command_code, d.payload_size))).Nodup ∧
    ((konepureultra_bin_attrs.erase bin_attr_tcu_image).map (fun d => d.command_code)).Nodup ∧
    bin_attr_tcu_image ∈ konepureultra_bin_attrs ∧
    bin_attr_tcu ∈ konepureultra_bin_attrs ∧
    bin_attr_tcu_image.command_code = 0x0c ∧
    bin_attr_tcu.command_code = 0x0c := by
  decide

/-- C7: the table holds exactly ten descriptors, each access mode occurs,
every command code lies in 0x04..0x10, every payload size is positive, and
the payload sizes occurring are exactly 0x03, 0x1f, 0x3b, 0x0822, 0x06, 0x04,
0x0404 and 0x10. -/
theorem bin_attrs_table_shape :
    konepureultra_bin_attrs.length = 10 ∧
    (∀ a : Access, ∃ d ∈ konepureultra_bin_attrs, d.access = a) ∧
    (∀ d ∈ konepureultra_bin_attrs,
      0x04 ≤ d.command_code ∧ d.command_code ≤ 0x10 ∧ 0 < d.payload_size) ∧
    (konepureultra_bin_attrs.map (fun d => d.payload_size)).toFinset =
      {0x03, 0x1f, 0x3b, 0x0822, 0x06, 0x04, 0x0404, 0x10} := by
  refine ⟨by decide, ?_, by decide, by decide⟩
  intro a
  cases a
  · exact ⟨bin_attr_control, by decide, rfl⟩
  · exact ⟨bin_attr_tcu, by decide, rfl⟩
  · exact ⟨bin_attr_tcu_image, by decide, rfl⟩

/-! ## Detach and the heap -/

theorem lookup_filter_self (p : Nat) (l : List (Nat × roccat_common2_device)) :
    (l.filter (fun e => e.1 != p)).lookup p = none := by
  induction l with
  | nil => rfl
  | cons e rest ih =>
    obtain ⟨a, d⟩ := e
    by_cases h : a = p
    · simp [List.filter_cons, h, ih]
    · have h2 : (p == a) = false := by simpa using fun hpa => h hpa.symm
      simp [List.filter_cons, h, List.lookup_cons, h2, ih]

theorem remove_rejected (w : World)
    (hg : w.bInterfaceProtocol ≠ USB_INTERFACE_PROTOCOL_MOUSE) :
    konepureultra_remove w = Except.ok (hid_hw_stop w) := by
  simp [konepureultra_remove, konepureultra_remove_specials, hg]

theorem remove_claimed (w : World) (p : Nat) (d : roccat_common2_device)
    (hg : w.bInterfaceProtocol = USB_INTERFACE_PROTOCOL_MOUSE) (hd : w.drvdata = some p)
    (hl : w.load p = some d) (hc : d.roccat_claimed ≠ 0) :
    konepureultra_remove w =
      Except.ok { w with
        heap := w.heap.filter (fun e => e.1 != p)
        hw_running := false
        channels := w.channels.erase d.chrdev_minor
        trace := w.trace ++
          [Call.roccat_disconnect d.chrdev_minor, Call.kfree p, Call.hid_hw_stop] } := by
  simp [konepureultra_remove, konepureultra_remove_specials, hid_get_drvdata, hid_hw_stop,
    kfree, roccat_disconnect, World.log, hg, hd, hl, hc]

theorem remove_unclaimed (w : World) (p : Nat) (d : roccat_common2_device)
    (hg : w.bInterfaceProtocol = USB_INTERFACE_PROTOCOL_MOUSE) (hd : w.drvdata = some p)
    (hl : w.load p = some d) (hc : d.roccat_claimed = 0) :
    konepureultra_remove w =
      Except.ok { w with
        heap := w.heap.filter (fun e => e.1 != p)
        hw_running := false
        trace := w.trace ++ [Call.kfree p, Call.hid_hw_stop] } := by
  simp [konepureultra_remove, konepureultra_remove_specials, hid_get_drvdata, hid_hw_stop,
    kfree, World.log, hg, hd, hl, hc]

/-- A probe that returns 0 went through parsing and transport start, and on a
mouse-protocol interface through allocation and device initialisation. -/
theorem probe_success_steps (o : Outcomes) (w w1 : World)
    (h : konepureultra_probe o w = Except.ok (0, w1)) :
    o.hid_parse = 0 ∧ o.hid_hw_start = 0 ∧
      (w.bInterfaceProtocol = USB_INTERFACE_PROTOCOL_MOUSE →
        o.kzalloc = true ∧ o.roccat_common2_device_init_struct = 0) := by
  by_cases hp : o.hid_parse = 0
  · by_cases hs : o.hid_hw_start = 0
    · refine ⟨hp, hs, fun hg => ?_⟩
      by_cases ha : o.kzalloc = true
      · by_cases hi : o.roccat_common2_device_init_struct = 0
        · exact ⟨ha, hi⟩
        · rw [probe_init_failed o w hp hs hg ha hi] at h
          simp only [Except.ok.injEq, Prod.mk.injEq] at h
          exact absurd h.1 hi
      · have ha2 : o.kzalloc = false := by simpa using ha
        rw [probe_alloc_failed o w hp hs hg ha2] at h
        simp [ENOMEM] at h
    · rw [probe_start_failed o w hp hs] at h
      simp only [Except.ok.injEq, Prod.mk.injEq] at h
      exact absurd h.1 hs
  · rw [probe_parse_failed o w hp] at h
    simp only [Except.ok.injEq, Prod.mk.injEq] at h
    exact absurd h.1 hp

/-- C3: on a mouse-protocol interface where parsing, transport start,
allocation and device initialisation succeed and `roccat_connect` fails,
`konepureultra_probe` returns 0, the driver data points to a context with
`roccat_claimed = 0`, no channel was opened, the transport is running and was
not stopped, and delivering any sequence of reports of tag 3 afterwards makes
no call at all (so no forward call). -/
theorem probe_connect_failure_is_not_fatal (o : Outcomes) (w : World)
    (reports : List (List Nat))
    (hg : w.bInterfaceProtocol = USB_INTERFACE_PROTOCOL_MOUSE)
    (hp : o.hid_parse = 0) (hs : o.hid_hw_start = 0) (ha : o.kzalloc = true)
    (hi : o.roccat_common2_device_init_struct = 0) (hc : o.roccat_connect < 0)
    (ht : ∀ data ∈ reports, data.head? = some KONEPUREULTRA_MOUSE_REPORT_NUMBER_BUTTON) :
    ∃ w1, konepureultra_probe o w = Except.ok (0, w1) ∧
      w1.drvdata = some w.next_addr ∧
      w1.load w.next_addr = some { roccat_claimed := 0, chrdev_minor := 0 } ∧
      w1.channels = w.channels ∧
      w1.hw_running = true ∧
      w1.trace = w.trace ++
        [Call.hid_parse, Call.hid_hw_start, Call.kzalloc (some w.next_addr),
         Call.roccat_common2_device_init_struct w.next_addr, Call.roccat_connect 8] ∧
      deliver w1 reports = Except.ok w1 := by
  refine ⟨_, probe_connect_failed o w hp hs hg ha hi hc, rfl, ?_, rfl, rfl, rfl, ?_⟩
  · simp [World.load]
  · refine deliver_unclaimed _ reports w.next_addr { roccat_claimed := 0, chrdev_minor := 0 }
      rfl ?_ rfl ?_
    · simp [World.load]
    · intro data hd hnil
      have h3 := ht data hd
      rw [hnil] at h3
      simp at h3

theorem probe_connect_failure_is_not_fatal_witness :
    ∃ w1, konepureultra_probe (outcomes_connect (-1)) (fresh 2) = Except.ok (0, w1) ∧
      w1.drvdata = some 1 ∧
      w1.load 1 = some { roccat_claimed := 0, chrdev_minor := 0 } ∧
      w1.channels = [] ∧
      w1.hw_running = true ∧
      w1.trace =
        [Call.hid_parse, Call.hid_hw_start, Call.kzalloc (some 1),
         Call.roccat_common2_device_init_struct 1, Call.roccat_connect 8] ∧
      deliver w1 [button_report, button_report] = Except.ok w1 :=
  probe_connect_failure_is_not_fatal (outcomes_connect (-1)) (fresh 2)
    [button_report, button_report] rfl rfl rfl rfl rfl (by decide) (by decide)

/-- C4: on an interface whose protocol differs from the mouse protocol, with
parsing and transport start succeeding, `konepureultra_probe` returns 0 after
calling only `hid_parse` and `hid_hw_start` (no allocation, no device
initialisation, no `roccat_connect`), the driver data is `NULL`, the heap and
the open channels are unchanged, and delivering any sequence of reports
afterwards makes no call at all. -/
theorem probe_rejected_interface_is_inert (o : Outcomes) (w : World)
    (reports : List (List Nat))
    (hg : w.bInterfaceProtocol ≠ USB_INTERFACE_PROTOCOL_MOUSE)
    (hp : o.hid_parse = 0) (hs : o.hid_hw_start = 0) :
    ∃ w1, konepureultra_probe o w = Except.ok (0, w1) ∧
      w1.drvdata = none ∧
      w1.heap = w.heap ∧
      w1.channels = w.channels ∧
      w1.trace = w.trace ++ [Call.hid_parse, Call.hid_hw_start] ∧
      deliver w1 reports = Except.ok w1 := by
  refine ⟨_, probe_rejected o w hp hs hg, rfl, rfl, rfl, rfl, ?_⟩
  exact deliver_rejected _ reports hg

theorem probe_rejected_interface_is_inert_witness :
    ∃ w1, konepureultra_probe (outcomes_connect 0) (fresh 1) = Except.ok (0, w1) ∧
      w1.drvdata = none ∧
      w1.heap = [] ∧
      w1.channels = [] ∧
      w1.trace = [Call.hid_parse, Call.hid_hw_start] ∧
      deliver w1 [button_report, [4, 0], []] = Except.ok w1 :=
  probe_rejected_interface_is_inert (outcomes_connect 0) (fresh 1)
    [button_report, [4, 0], []] (by decide) rfl rfl

/-- C6 (as stated, refuted): on a fresh mouse-protocol device where every step
succeeds except `roccat_connect`, which returns -1, `konepureultra_probe`
returns 0 and no channel is open: the context has `roccat_claimed = 0`. -/
theorem probe_success_without_open_channel :
    konepureultra_probe (outcomes_connect (-1)) (fresh 2) =
      Except.ok (0,
        { bInterfaceProtocol := 2, drvdata := some 1,
          heap := [(1, { roccat_claimed := 0, chrdev_minor := 0 })], next_addr := 2,
          hw_running := true, channels := [],
          trace := [Call.hid_parse, Call.hid_hw_start, Call.kzalloc (some 1),
            Call.roccat_common2_device_init_struct 1, Call.roccat_connect 8] }) := by
  rw [probe_connect_failed (outcomes_connect (-1)) (fresh 2) rfl rfl rfl rfl rfl (by decide)]
  rfl

/-- The state a successful probe of a mouse-protocol interface leaves: the
context at the freshly allocated address, claimed with the returned minor when
`roccat_connect` succeeded and zeroed when it failed. -/
theorem probe_success_state (o : Outcomes) (w w1 : World)
    (hg : w.bInterfaceProtocol = USB_INTERFACE_PROTOCOL_MOUSE)
    (h : konepureultra_probe o w = Except.ok (0, w1)) :
    w1.bInterfaceProtocol = USB_INTERFACE_PROTOCOL_MOUSE ∧
    w1.drvdata = some w.next_addr ∧
    w1.hw_running = true ∧
    w1.trace = w.trace ++
      [Call.hid_parse, Call.hid_hw_start, Call.kzalloc (some w.next_addr),
       Call.roccat_common2_device_init_struct w.next_addr, Call.roccat_connect 8] ∧
    (0 ≤ o.roccat_connect →
      w1.channels = o.roccat_connect :: w.channels ∧
      w1.load w.next_addr = some { roccat_claimed := 1, chrdev_minor := o.roccat_connect }) ∧
    (o.roccat_connect < 0 →
      w1.channels = w.channels ∧
      w1.load w.next_addr = some { roccat_claimed := 0, chrdev_minor := 0 }) := by
  obtain ⟨hp, hs, hai⟩ := probe_success_steps o w w1 h
  obtain ⟨ha, hi⟩ := hai hg
  by_cases hc : 0 ≤ o.roccat_connect
  · rw [probe_connected o w hp hs hg ha hi hc] at h
    simp only [Except.ok.injEq, Prod.mk.injEq, true_and] at h
    subst h
    refine ⟨hg, rfl, rfl, rfl, fun _ => ⟨rfl, ?_⟩, fun hn => absurd hc (by omega)⟩
    simp [World.load]
  · have hn : o.roccat_connect < 0 := by omega
    rw [probe_connect_failed o w hp hs hg ha hi hn] at h
    simp only [Except.ok.injEq, Prod.mk.injEq, true_and] at h
    subst h
    refine ⟨hg, rfl, rfl, rfl, fun hc2 => absurd hc2 hc, fun _ => ⟨rfl, ?_⟩⟩
    simp [World.load]

/-- C6 (amended): after a successful `konepureultra_probe` of a mouse-protocol
interface at most one channel is open for the context: exactly the channel
`r` returned by `roccat_connect`, recorded in the context, when `r >= 0`, and
none when `roccat_connect` failed.  During the probe the context is allocated
once and not freed.  The following `konepureultra_remove` succeeds, leaves the
open channels as they were before the probe, and frees the context exactly
once, after which it is no longer allocated. -/
theorem probe_then_remove_channel_and_context (o : Outcomes) (w w1 : World)
    (hg : w.bInterfaceProtocol = USB_INTERFACE_PROTOCOL_MOUSE)
    (h : konepureultra_probe o w = Except.ok (0, w1)) :
    w1.drvdata = some w.next_addr ∧
    w1.trace = w.trace ++
      [Call.hid_parse, Call.hid_hw_start, Call.kzalloc (some w.next_addr),
       Call.roccat_common2_device_init_struct w.next_addr, Call.roccat_connect 8] ∧
    (0 ≤ o.roccat_connect →
      w1.channels = o.roccat_connect :: w.channels ∧
      w1.load w.next_addr = some { roccat_claimed := 1, chrdev_minor := o.roccat_connect }) ∧
    (o.roccat_connect < 0 →
      w1.channels = w.channels ∧
      w1.load w.next_addr = some { roccat_claimed := 0, chrdev_minor := 0 }) ∧
    ∃ w2, konepureultra_remove w1 = Except.ok w2 ∧
      w2.channels = w.channels ∧
      w2.load w.next_addr = none ∧
      w2.trace = w1.trace ++
        (if 0 ≤ o.roccat_connect then [Call.roccat_disconnect o.roccat_connect] else []) ++
        [Call.kfree w.next_addr, Call.hid_hw_stop] := by
  obtain ⟨hg1, hd, _, htr, hopen, hclosed⟩ := probe_success_state o w w1 hg h
  refine ⟨hd, htr, hopen, hclosed, ?_⟩
  by_cases hc : 0 ≤ o.roccat_connect
  · obtain ⟨hch, hl⟩ := hopen hc
    refine ⟨_, remove_claimed w1 w.next_addr _ hg1 hd hl (by simp), ?_, ?_, ?_⟩
    · simp [hch]
    · simp [World.load, lookup_filter_self]
    · simp [hc]
  · have hn : o.roccat_connect < 0 := by omega
    obtain ⟨hch, hl⟩ := hclosed hn
    refine ⟨_, remove_unclaimed w1 w.next_addr _ hg1 hd hl rfl, ?_, ?_, ?_⟩
    · simp [hch]
    · simp [World.load, lookup_filter_self]
    · simp [hc]

theorem probe_then_remove_channel_and_context_witness :
    konepureultra_probe (outcomes_connect 7) (fresh 2) = Except.ok (0, connected_device) ∧
    ∃ w2, konepureultra_remove connected_device = Except.ok w2 ∧
      w2.channels = [] ∧
      w2.load 1 = none ∧
      w2.trace =
        [Call.hid_parse, Call.hid_hw_start, Call.kzalloc (some 1),
         Call.roccat_common2_device_init_struct 1, Call.roccat_connect 8,
         Call.roccat_disconnect 7, Call.kfree 1, Call.hid_hw_stop] :=
  have hprobe : konepureultra_probe (outcomes_connect 7) (fresh 2) =
      Except.ok (0, connected_device) := by
    rw [probe_connected (outcomes_connect 7) (fresh 2) rfl rfl rfl rfl rfl (by decide)]
    rfl
  ⟨hprobe,
   (probe_then_remove_channel_and_context (outcomes_connect 7) (fresh 2) connected_device
      rfl hprobe).2.2.2.2⟩

/-- C8: starting with the transport stopped, `konepureultra_probe` always
returns; it returns 0 exactly when parsing and transport start succeed and
either the interface is not the mouse interface or allocation and device
initialisation both succeed, and otherwise the error of the first failing
step (`-ENOMEM` for a failed allocation).  After a parse failure only
`hid_parse` was called; after a transport-start failure only `hid_parse` and
`hid_hw_start` were called and the heap is unchanged; after an allocation or
initialisation failure `hid_hw_stop` is the last call.  On return the
transport is running exactly when the result is 0. -/
theorem probe_result_and_transport (o : Outcomes) (w : World)
    (h0 : w.hw_running = false) :
    ∃ ret w1, konepureultra_probe o w = Except.ok (ret, w1) ∧
      (ret = 0 ↔
        o.hid_parse = 0 ∧ o.hid_hw_start = 0 ∧
          (w.bInterfaceProtocol ≠ USB_INTERFACE_PROTOCOL_MOUSE ∨
            (o.kzalloc = true ∧ o.roccat_common2_device_init_struct = 0))) ∧
      (o.hid_parse ≠ 0 →
        ret = o.hid_parse ∧ w1.trace = w.trace ++ [Call.hid_parse] ∧ w1.heap = w.heap) ∧
      (o.hid_parse = 0 → o.hid_hw_start ≠ 0 →
        ret = o.hid_hw_start ∧
        w1.trace = w.trace ++ [Call.hid_parse, Call.hid_hw_start] ∧ w1.heap = w.heap) ∧
      (o.hid_parse = 0 → o.hid_hw_start = 0 →
        w.bInterfaceProtocol = USB_INTERFACE_PROTOCOL_MOUSE → o.kzalloc = false →
        ret = -ENOMEM ∧
        w1.trace = w.trace ++
          [Call.hid_parse, Call.hid_hw_start, Call.kzalloc none, Call.hid_hw_stop]) ∧
      (o.hid_parse = 0 → o.hid_hw_start = 0 →
        w.bInterfaceProtocol = USB_INTERFACE_PROTOCOL_MOUSE → o.kzalloc = true →
        o.roccat_common2_device_init_struct ≠ 0 →
        ret = o.roccat_common2_device_init_struct ∧
        w1.trace = w.trace ++
          [Call.hid_parse, Call.hid_hw_start, Call.kzalloc (some w.next_addr),
           Call.roccat_common2_device_init_struct w.next_addr, Call.kfree w.next_addr,
           Call.hid_hw_stop]) ∧
      (w1.hw_running = true ↔ ret = 0) := by
  by_cases hp : o.hid_parse = 0
  · by_cases hs : o.hid_hw_start = 0
    · by_cases hg : w.bInterfaceProtocol = USB_INTERFACE_PROTOCOL_MOUSE
      · by_cases ha : o.kzalloc = true
        · by_cases hi : o.roccat_common2_device_init_struct = 0
          · by_cases hc : o.roccat_connect < 0
            · refine ⟨_, _, probe_connect_failed o w hp hs hg ha hi hc, ?_⟩
              simp [hp, hs, hg, ha, hi]
            · refine ⟨_, _, probe_connected o w hp hs hg ha hi (by omega), ?_⟩
              simp [hp, hs, hg, ha, hi]
          · refine ⟨_, _, probe_init_failed o w hp hs hg ha hi, ?_⟩
            simp [hp, hs, hg, ha, hi]
        · have ha2 : o.kzalloc = false := by simpa using ha
          refine ⟨_, _, probe_alloc_failed o w hp hs hg ha2, ?_⟩
          simp [hp, hs, hg, ha2, ENOMEM]
      · refine ⟨_, _, probe_rejected o w hp hs hg, ?_⟩
        simp [hp, hs, hg]
    · refine ⟨_, _, probe_start_failed o w hp hs, ?_⟩
      simp [hp, hs, h0, World.log]
  · refine ⟨_, _, probe_parse_failed o w hp, ?_⟩
    simp [hp, h0, World.log]

theorem probe_result_and_transport_witness :
    ∃ ret w1, konepureultra_probe (outcomes_init (-5)) (fresh 2) = Except.ok (ret, w1) ∧
      ret = -5 ∧ w1.hw_running = false ∧
      w1.trace =
        [Call.hid_parse, Call.hid_hw_start, Call.kzalloc (some 1),
         Call.roccat_common2_device_init_struct 1, Call.kfree 1, Call.hid_hw_stop] := by
  obtain ⟨ret, w1, h, _, _, _, _, hinit, hrun⟩ :=
    probe_result_and_transport (outcomes_init (-5)) (fresh 2) rfl
  obtain ⟨hret, htr⟩ := hinit rfl rfl rfl rfl (by decide)
  refine ⟨ret, w1, h, hret, ?_, htr⟩
  cases hw : w1.hw_running
  · rfl
  · rw [hrun.mp hw] at hret
    exact absurd hret (by decide)

/-- C9: on every device state left by a successful `konepureultra_probe`,
`konepureultra_remove` succeeds and ends with the transport stopped.  On an
interface that is not the mouse interface (driver data `NULL`) it only calls
`hid_hw_stop` and touches neither heap, driver data nor channels.  On the
mouse interface the context `d` at the driver-data address is claimed exactly
when `roccat_connect` had succeeded, in which case it stores the returned
minor; the calls made are `roccat_disconnect d.chrdev_minor` if and only if
`d.roccat_claimed` is set, then one `kfree` of the context, then
`hid_hw_stop`, and the context is no longer allocated afterwards. -/
theorem remove_after_successful_probe (o : Outcomes) (w w1 : World)
    (h : konepureultra_probe o w = Except.ok (0, w1)) :
    ∃ w2, konepureultra_remove w1 = Except.ok w2 ∧
      w2.hw_running = false ∧
      (w.bInterfaceProtocol ≠ USB_INTERFACE_PROTOCOL_MOUSE →
        w1.drvdata = none ∧
        w2.trace = w1.trace ++ [Call.hid_hw_stop] ∧
        w2.heap = w1.heap ∧ w2.drvdata = none ∧ w2.channels = w1.channels) ∧
      (w.bInterfaceProtocol = USB_INTERFACE_PROTOCOL_MOUSE →
        ∃ d, w1.drvdata = some w.next_addr ∧
          w1.load w.next_addr = some d ∧
          (d.roccat_claimed ≠ 0 ↔ 0 ≤ o.roccat_connect) ∧
          (d.roccat_claimed ≠ 0 → d.chrdev_minor = o.roccat_connect) ∧
          w2.trace = w1.trace ++
            (if d.roccat_claimed ≠ 0 then [Call.roccat_disconnect d.chrdev_minor] else []) ++
            [Call.kfree w.next_addr, Call.hid_hw_stop] ∧
          w2.load w.next_addr = none) := by
  by_cases hg : w.bInterfaceProtocol = USB_INTERFACE_PROTOCOL_MOUSE
  · obtain ⟨hg1, hd, _, _, hopen, hclosed⟩ := probe_success_state o w w1 hg h
    by_cases hc : 0 ≤ o.roccat_connect
    · obtain ⟨_, hl⟩ := hopen hc
      refine ⟨_, remove_claimed w1 w.next_addr _ hg1 hd hl (by simp), rfl,
        fun hng => absurd hg hng, fun _ => ⟨_, hd, hl, ?_, ?_, ?_, ?_⟩⟩
      · simp [hc]
      · simp
      · simp
      · simp [World.load, lookup_filter_self]
    · have hn : o.roccat_connect < 0 := by omega
      obtain ⟨_, hl⟩ := hclosed hn
      refine ⟨_, remove_unclaimed w1 w.next_addr _ hg1 hd hl rfl, rfl,
        fun hng => absurd hg hng, fun _ => ⟨_, hd, hl, ?_, ?_, ?_, ?_⟩⟩
      · simp [hc]
      · simp
      · simp
      · simp [World.load, lookup_filter_self]
  · obtain ⟨hp, hs, _⟩ := probe_success_steps o w w1 h
    rw [probe_rejected o w hp hs hg] at h
    simp only [Except.ok.injEq, Prod.mk.injEq, true_and] at h
    subst h
    refine ⟨_, remove_rejected _ hg, rfl, fun _ => ⟨rfl, rfl, rfl, rfl, rfl⟩,
      fun hg2 => absurd hg2 hg⟩

theorem remove_after_successful_probe_witness :
    konepureultra_probe (outcomes_connect 7) (fresh 2) = Except.ok (0, connected_device) ∧
    ∃ w2, konepureultra_remove connected_device = Except.ok w2 ∧
      w2.hw_running = false ∧
      w2.trace = connected_device.trace ++
        [Call.roccat_disconnect 7, Call.kfree 1, Call.hid_hw_stop] := by
  have hprobe : konepureultra_probe (outcomes_connect 7) (fresh 2) =
      Except.ok (0, connected_device) := by
    rw [probe_connected (outcomes_connect 7) (fresh 2) rfl rfl rfl rfl rfl (by decide)]
    rfl
  obtain ⟨w2, hrem, hstop, _, hmouse⟩ :=
    remove_after_successful_probe (outcomes_connect 7) (fresh 2) connected_device hprobe
  obtain ⟨d, _, hl, _, _, htr, _⟩ := hmouse rfl
  have hd : d = { roccat_claimed := 1, chrdev_minor := 7 } := by
    have h2 : connected_device.load 1 = some { roccat_claimed := 1, chrdev_minor := 7 } := rfl
    have h3 : (fresh 2).next_addr = 1 := rfl
    rw [h3, h2] at hl
    exact (Option.some.inj hl).symm
  subst hd
  exact ⟨hprobe, w2, hrem, hstop, htr⟩

/-- C10: on a mouse-protocol interface where allocation and device
initialisation succeed, for every result `r` of `roccat_connect`,
`konepureultra_init_specials` returns 0 and leaves the driver data pointing to
a context whose `roccat_claimed` is set if and only if `r >= 0`; then the
stored `chrdev_minor` is `r` (also for `r = 0`) and the channel `r` is open,
while for `r < 0` the context is the zeroed allocation and no channel was
opened.  `roccat_connect` is called once, with report size 8, the size of
`struct konepureultra_mouse_report_button`. -/
theorem init_specials_claims_iff_connect_nonneg (o : Outcomes) (w : World)
    (hg : w.bInterfaceProtocol = USB_INTERFACE_PROTOCOL_MOUSE)
    (ha : o.kzalloc = true) (hi : o.roccat_common2_device_init_struct = 0) :
    ∃ w1 d, konepureultra_init_specials o w = Except.ok (0, w1) ∧
      w1.drvdata = some w.next_addr ∧
      w1.load w.next_addr = some d ∧
      (d.roccat_claimed ≠ 0 ↔ 0 ≤ o.roccat_connect) ∧
      (0 ≤ o.roccat_connect →
        d = { roccat_claimed := 1, chrdev_minor := o.roccat_connect } ∧
        w1.channels = o.roccat_connect :: w.channels) ∧
      (o.roccat_connect < 0 →
        d = { roccat_claimed := 0, chrdev_minor := 0 } ∧ w1.channels = w.channels) ∧
      w1.trace = w.trace ++
        [Call.kzalloc (some w.next_addr), Call.roccat_common2_device_init_struct w.next_addr,
         Call.roccat_connect sizeof_konepureultra_mouse_report_button] ∧
      sizeof_konepureultra_mouse_report_button = 8 := by
  by_cases hc : o.roccat_connect < 0
  · refine ⟨{ w with
        drvdata := some w.next_addr
        heap := (w.next_addr, { roccat_claimed := 0, chrdev_minor := 0 }) :: w.heap
        next_addr := w.next_addr + 1
        trace := w.trace ++
          [Call.kzalloc (some w.next_addr), Call.roccat_common2_device_init_struct w.next_addr,
           Call.roccat_connect 8] },
      { roccat_claimed := 0, chrdev_minor := 0 }, ?_, rfl, ?_, ?_, ?_, ?_, rfl, rfl⟩
    · simp [konepureultra_init_specials, kzalloc, hid_set_drvdata,
        roccat_common2_device_init_struct, roccat_connect, World.log, hg, ha, hi, hc,
        sizeof_konepureultra_mouse_report_button, konepureultra_mouse_report_button]
    · simp [World.load]
    · simp; omega
    · intro h; omega
    · intro _; exact ⟨rfl, rfl⟩
  · refine ⟨{ w with
        drvdata := some w.next_addr
        heap := (w.next_addr, { roccat_claimed := 1, chrdev_minor := o.roccat_connect }) ::
          w.heap.filter (fun e => e.1 != w.next_addr)
        next_addr := w.next_addr + 1
        channels := o.roccat_connect :: w.channels
        trace := w.trace ++
          [Call.kzalloc (some w.next_addr), Call.roccat_common2_device_init_struct w.next_addr,
           Call.roccat_connect 8] },
      { roccat_claimed := 1, chrdev_minor := o.roccat_connect }, ?_, rfl, ?_, ?_, ?_, ?_,
      rfl, rfl⟩
    · simp [konepureultra_init_specials, kzalloc, hid_set_drvdata,
        roccat_common2_device_init_struct, roccat_connect, World.log, World.load, World.store,
        hg, ha, hi, hc, sizeof_konepureultra_mouse_report_button,
        konepureultra_mouse_report_button]
    · simp [World.load]
    · simp; omega
    · intro _; exact ⟨rfl, rfl⟩
    · intro h; exact absurd h hc

theorem init_specials_claims_iff_connect_nonneg_witness :
    ∃ w1 d, konepureultra_init_specials (outcomes_connect 0) (fresh 2) = Except.ok (0, w1) ∧
      w1.drvdata = some 1 ∧
      w1.load 1 = some d ∧
      d = { roccat_claimed := 1, chrdev_minor := 0 } ∧
      w1.channels = [0] := by
  obtain ⟨w1, d, h, hd, hl, _, hopen, _, _, _⟩ :=
    init_specials_claims_iff_connect_nonneg (outcomes_connect 0) (fresh 2) rfl rfl rfl
  obtain ⟨hdv, hch⟩ := hopen (by decide)
  exact ⟨w1, d, h, hd, hl, hdv, hch⟩

end KonePureUltra
